import Mathlib

/-!
Verification of the airsstack protocol-conformance test harness scripts.

The Python sources under
crates/airs-mcp/examples/(oauth2-integration | http-oauth2-client-integration |
http-oauth2-server-integration)/tests are embedded shallowly: pure helper
functions become Lean functions over Nat byte lists and Char lists, the
process- and network-facing loops become functions of explicit traces of the
observations the loop makes (probe results, process-exit flags), and the
classification logic of each test case becomes a total Lean function of the
abstracted response.
-/

set_option autoImplicit false

namespace AirsSpec

/-! ## Base64 (models Python base64.b64encode / base64.urlsafe_b64encode) -/

/-- The standard base64 alphabet used by Python base64.b64encode. -/
def stdAlphabet : List Char :=
  "ABCDEFGHIJKLMNOPQRSTUVWXYZabcdefghijklmnopqrstuvwxyz0123456789+/".data

/-- The URL-safe base64 alphabet used by Python base64.urlsafe_b64encode. -/
def urlsafeAlphabet : List Char :=
  "ABCDEFGHIJKLMNOPQRSTUVWXYZabcdefghijklmnopqrstuvwxyz0123456789-_".data

/-- The sextet indices of a byte list under base64 chunking: full 3-byte
groups give four sextets, a trailing 2-byte group gives three, a trailing
single byte gives two. -/
def b64IndexChunks : List Nat → List Nat
  | a :: b :: c :: rest =>
      (a >>> 2) :: (((a % 4) <<< 4) ||| (b >>> 4)) ::
      (((b % 16) <<< 2) ||| (c >>> 6)) :: (c % 64) :: b64IndexChunks rest
  | [a, b] => [a >>> 2, ((a % 4) <<< 4) ||| (b >>> 4), (b % 16) <<< 2]
  | [a] => [a >>> 2, (a % 4) <<< 4]
  | [] => []

/-- The base64 body characters (without padding) of a byte list. -/
def b64Body (alpha : List Char) (bs : List Nat) : List Char :=
  (b64IndexChunks bs).map (fun i => alpha.getD i 'A')

/-- The padding characters appended by Python b64encode for a given input
length. -/
def b64PadChars (n : Nat) : List Char :=
  if n % 3 = 1 then ['=', '='] else if n % 3 = 2 then ['='] else []

/-- Python b64encode (with the given alphabet): body plus padding. -/
def b64encode (alpha : List Char) (bs : List Nat) : List Char :=
  b64Body alpha bs ++ b64PadChars bs.length

/-- Python str.rstrip applied with the equals sign: drop every trailing
equals character. -/
def rstripEq (l : List Char) : List Char :=
  (l.reverse.dropWhile (fun c => c = '=')).reverse

/-- Models the Python idiom b64encode(bs).decode().rstrip with equals:
the form every token segment and the PKCE verifier/challenge take. -/
def b64encStr (alpha : List Char) (bs : List Nat) : String :=
  String.mk (rstripEq (b64encode alpha bs))

/-- Spec-side formula: base64url without padding, as a string. -/
def base64url_nopad (bs : List Nat) : String :=
  String.mk (b64Body urlsafeAlphabet bs)

/-- List.getD yields a member of the list or the default. -/
theorem getD_mem_or (a : List Char) (i : Nat) (d : Char) :
    a.getD i d ∈ a ∨ a.getD i d = d := by
  induction a generalizing i with
  | nil => right; simp [List.getD]
  | cons x rest ih =>
      cases i with
      | zero => left; simp [List.getD]
      | succ n =>
          have hstep : (x :: rest).getD (n + 1) d = rest.getD n d := by
            simp [List.getD]
          rcases ih n with h | h
          · left
            rw [hstep]
            exact List.mem_cons_of_mem x h
          · right
            rw [hstep, h]

/-- Every character of a base64 body is in the alphabet, provided the
default character is. -/
theorem b64Body_mem (alpha : List Char) (hA : 'A' ∈ alpha) (bs : List Nat) :
    ∀ c ∈ b64Body alpha bs, c ∈ alpha := by
  intro c hc
  rcases List.mem_map.mp hc with ⟨i, _, rfl⟩
  rcases getD_mem_or alpha i 'A' with h | h
  · exact h
  · rw [h]; exact hA

theorem A_mem_stdAlphabet : 'A' ∈ stdAlphabet := by decide

theorem A_mem_urlsafeAlphabet : 'A' ∈ urlsafeAlphabet := by decide

theorem eq_not_mem_stdAlphabet : '=' ∉ stdAlphabet := by decide

theorem eq_not_mem_urlsafeAlphabet : '=' ∉ urlsafeAlphabet := by decide

theorem dot_not_mem_stdAlphabet : '.' ∉ stdAlphabet := by decide

theorem dot_not_mem_urlsafeAlphabet : '.' ∉ urlsafeAlphabet := by decide

/-- dropWhile passes over a block of elements satisfying the predicate. -/
theorem dropWhile_replicate_append (p : Char → Bool) (a : Char) (hp : p a = true)
    (k : Nat) (l : List Char) :
    (List.replicate k a ++ l).dropWhile p = l.dropWhile p := by
  induction k with
  | zero => simp
  | succ n ih => simp [List.replicate_succ, List.dropWhile, hp, ih]

/-- dropWhile is the identity when no element satisfies the predicate. -/
theorem dropWhile_eq_self_of_forall (p : Char → Bool) (l : List Char)
    (h : ∀ c ∈ l, p c = false) : l.dropWhile p = l := by
  cases l with
  | nil => rfl
  | cons c rest =>
      have hc : p c = false := h c (List.mem_cons_self c rest)
      simp [List.dropWhile, hc]

/-- Stripping trailing equals characters from a body-plus-padding recovers
the body whenever the body itself holds no equals character. -/
theorem rstripEq_append_pad (body : List Char) (k : Nat)
    (h : ∀ c ∈ body, c ≠ '=') :
    rstripEq (body ++ List.replicate k '=') = body := by
  unfold rstripEq
  rw [List.reverse_append, List.reverse_replicate]
  rw [dropWhile_replicate_append (fun c => c = '=') '=' (by simp) k body.reverse]
  rw [dropWhile_eq_self_of_forall]
  · exact List.reverse_reverse body
  · intro c hc
    have : c ∈ body := List.mem_reverse.mp hc
    simpa using h c this

/-- The padding characters are a replicate of the equals character. -/
theorem b64PadChars_eq_replicate (n : Nat) :
    b64PadChars n = List.replicate (if n % 3 = 1 then 2 else if n % 3 = 2 then 1 else 0) '=' := by
  unfold b64PadChars
  rcases h : n % 3 with _ | _ | m
  · simp
  · simp
  · have hm : m = 0 := by
      have h3 : n % 3 < 3 := Nat.mod_lt n (by norm_num)
      omega
    subst hm
    simp

/-- Stripping the padding from a full Python base64 encoding yields exactly
the no-padding body, for any alphabet that avoids the equals character. -/
theorem rstripEq_b64encode (alpha : List Char) (hA : 'A' ∈ alpha)
    (hEq : '=' ∉ alpha) (bs : List Nat) :
    rstripEq (b64encode alpha bs) = b64Body alpha bs := by
  unfold b64encode
  rw [b64PadChars_eq_replicate]
  apply rstripEq_append_pad
  intro c hc hcEq
  exact hEq (hcEq ▸ b64Body_mem alpha hA bs c hc)

/-- Length of the sextet index list in terms of the byte count. -/
theorem b64IndexChunks_length : ∀ bs : List Nat,
    (b64IndexChunks bs).length = (4 * bs.length + 2) / 3
  | [] => rfl
  | [_] => by simp [b64IndexChunks]
  | [_, _] => by simp [b64IndexChunks]
  | a :: b :: c :: rest => by
      have ih := b64IndexChunks_length rest
      have : b64IndexChunks (a :: b :: c :: rest)
          = (a >>> 2) :: (((a % 4) <<< 4) ||| (b >>> 4)) ::
            (((b % 16) <<< 2) ||| (c >>> 6)) :: (c % 64) :: b64IndexChunks rest := rfl
      rw [this]
      simp only [List.length_cons, ih]
      omega

/-- Length of the base64 body. -/
theorem b64Body_length (alpha : List Char) (bs : List Nat) :
    (b64Body alpha bs).length = (4 * bs.length + 2) / 3 := by
  unfold b64Body
  rw [List.length_map, b64IndexChunks_length]

/-! ## UTF-8 encoding (models Python str.encode) -/

/-- UTF-8 bytes of one character. -/
def utf8EncodeChar (c : Char) : List Nat :=
  let n := c.toNat
  if n < 128 then [n]
  else if n < 2048 then [192 ||| (n >>> 6), 128 ||| (n % 64)]
  else if n < 65536 then
    [224 ||| (n >>> 12), 128 ||| ((n >>> 6) % 64), 128 ||| (n % 64)]
  else
    [240 ||| (n >>> 18), 128 ||| ((n >>> 12) % 64), 128 ||| ((n >>> 6) % 64), 128 ||| (n % 64)]

/-- UTF-8 bytes of a string. -/
def utf8Encode (s : String) : List Nat :=
  s.data.flatMap utf8EncodeChar

/-! ## SHA-256 (models Python hashlib.sha256, FIPS 180-4) -/

/-- Truncation to a 32-bit word. -/
def w32 (n : Nat) : Nat := n % 4294967296

/-- Right rotation of a 32-bit word. -/
def rotr (n x : Nat) : Nat := w32 ((x >>> n) ||| (x <<< (32 - n)))

/-- The 64 SHA-256 round constants (FIPS 180-4, in decimal). -/
def shaK : List Nat :=
  [1116352408, 1899447441, 3049323471, 3921009573, 961987163, 1508970993,
   2453635748, 2870763221, 3624381080, 310598401, 607225278, 1426881987,
   1925078388, 2162078206, 2614888103, 3248222580, 3835390401, 4022224774,
   264347078, 604807628, 770255983, 1249150122, 1555081692, 1996064986,
   2554220882, 2821834349, 2952996808, 3210313671, 3336571891, 3584528711,
   113926993, 338241895, 666307205, 773529912, 1294757372, 1396182291,
   1695183700, 1986661051, 2177026350, 2456956037, 2730485921, 2820302411,
   3259730800, 3345764771, 3516065817, 3600352804, 4094571909, 275423344,
   430227734, 506948616, 659060556, 883997877, 958139571, 1322822218,
   1537002063, 1747873779, 1955562222, 2024104815, 2227730452, 2361852424,
   2428436474, 2756734187, 3204031479, 3329325298]

/-- The initial SHA-256 hash state (FIPS 180-4, in decimal). -/
def shaH0 : List Nat :=
  [1779033703, 3144134277, 1013904242, 2773480762,
   1359893119, 2600822924, 528734635, 1541459225]

/-- The 8-byte big-endian encoding of the bit length. -/
def lenBytes64 (bits : Nat) : List Nat :=
  [(bits >>> 56) % 256, (bits >>> 48) % 256, (bits >>> 40) % 256, (bits >>> 32) % 256,
   (bits >>> 24) % 256, (bits >>> 16) % 256, (bits >>> 8) % 256, bits % 256]

/-- SHA-256 padding: append 0x80, zero bytes to 56 mod 64, then the bit
length as 8 big-endian bytes. -/
def padMessage (msg : List Nat) : List Nat :=
  let L := msg.length
  let zeroCount := (119 - L % 64) % 64
  msg ++ 0x80 :: List.replicate zeroCount 0 ++ lenBytes64 (8 * L)

/-- Big-endian 32-bit words from bytes. -/
def toWords : List Nat → List Nat
  | a :: b :: c :: d :: rest =>
      ((a <<< 24) ||| (b <<< 16) ||| (c <<< 8) ||| d) :: toWords rest
  | _ => []

def smallSigma0 (x : Nat) : Nat := (rotr 7 x) ^^^ (rotr 18 x) ^^^ (x >>> 3)

def smallSigma1 (x : Nat) : Nat := (rotr 17 x) ^^^ (rotr 19 x) ^^^ (x >>> 10)

def bigSigma0 (x : Nat) : Nat := (rotr 2 x) ^^^ (rotr 13 x) ^^^ (rotr 22 x)

def bigSigma1 (x : Nat) : Nat := (rotr 6 x) ^^^ (rotr 11 x) ^^^ (rotr 25 x)

def chF (x y z : Nat) : Nat := (x &&& y) ^^^ ((x ^^^ 0xffffffff) &&& z)

def majF (x y z : Nat) : Nat := (x &&& y) ^^^ (x &&& z) ^^^ (y &&& z)

/-- Extend the 16 message-schedule words to 64. -/
def extendWords (w : List Nat) : Nat → List Nat
  | 0 => w
  | fuel + 1 =>
      let i := w.length
      let nw := w32 (smallSigma1 (w.getD (i - 2) 0) + w.getD (i - 7) 0 +
                     smallSigma0 (w.getD (i - 15) 0) + w.getD (i - 16) 0)
      extendWords (w ++ [nw]) fuel

/-- One SHA-256 compression round on the 8-word working state. -/
def roundStep (k wv : Nat) (st : List Nat) : List Nat :=
  let a := st.getD 0 0
  let b := st.getD 1 0
  let c := st.getD 2 0
  let d := st.getD 3 0
  let e := st.getD 4 0
  let f := st.getD 5 0
  let g := st.getD 6 0
  let h := st.getD 7 0
  let t1 := w32 (h + bigSigma1 e + chF e f g + k + wv)
  let t2 := w32 (bigSigma0 a + majF a b c)
  [w32 (t1 + t2), a, b, c, w32 (d + t1), e, f, g]

/-- Compress one 64-byte block into the hash state. -/
def compressBlock (H : List Nat) (block : List Nat) : List Nat :=
  let w := extendWords (toWords block) 48
  let fin := (List.range 64).foldl (fun st i => roundStep (shaK.getD i 0) (w.getD i 0) st) H
  (List.range 8).map (fun i => w32 (H.getD i 0 + fin.getD i 0))

/-- Process the given number of 64-byte blocks. -/
def processBlocksN : Nat → List Nat → List Nat → List Nat
  | 0, H, _ => H
  | n + 1, H, msg => processBlocksN n (compressBlock H (msg.take 64)) (msg.drop 64)

/-- Big-endian bytes of a 32-bit word. -/
def wordToBytes (w : Nat) : List Nat :=
  [(w >>> 24) % 256, (w >>> 16) % 256, (w >>> 8) % 256, w % 256]

/-- The SHA-256 digest (32 bytes) of a byte list. -/
def sha256 (msg : List Nat) : List Nat :=
  let p := padMessage msg
  (processBlocksN (p.length / 64) shaH0 p).flatMap wordToBytes

/-! ## PKCE (OAuth2FlowTester.generate_pkce_challenge,
test_oauth2_authorization_flow.py lines 127-137) -/

/-- PKCE code challenge and verifier pair. -/
structure PKCEChallenge where
  verifier : String
  challenge : String
  method : String

/-- The challenge computation applied to a verifier: urlsafe base64 of the
SHA-256 digest of the UTF-8 bytes, with trailing equals characters stripped. -/
def challengeOf (v : String) : String :=
  b64encStr urlsafeAlphabet (sha256 (utf8Encode v))

/-- generate_pkce_challenge as a function of the 32 random bytes drawn from
secrets.token_bytes. -/
def generate_pkce_challenge (tokenBytes : List Nat) : PKCEChallenge :=
  let verifier := b64encStr urlsafeAlphabet tokenBytes
  { verifier := verifier, challenge := challengeOf verifier, method := "S256" }

/-- For an alphabet free of the equals character, the Python encode-then-rstrip
string equals the no-padding base64 body. -/
theorem b64encStr_eq_body (alpha : List Char) (hA : 'A' ∈ alpha)
    (hEq : '=' ∉ alpha) (bs : List Nat) :
    b64encStr alpha bs = String.mk (b64Body alpha bs) := by
  unfold b64encStr
  rw [rstripEq_b64encode alpha hA hEq bs]

/-- The urlsafe encode-then-rstrip string is exactly base64url without padding. -/
theorem b64encStr_urlsafe_eq_nopad (bs : List Nat) :
    b64encStr urlsafeAlphabet bs = base64url_nopad bs := by
  rw [b64encStr_eq_body urlsafeAlphabet A_mem_urlsafeAlphabet eq_not_mem_urlsafeAlphabet]
  rfl

/-- Length of the urlsafe encode-then-rstrip string. -/
theorem b64encStr_urlsafe_length (bs : List Nat) :
    (b64encStr urlsafeAlphabet bs).length = (4 * bs.length + 2) / 3 := by
  rw [b64encStr_urlsafe_eq_nopad]
  show (b64Body urlsafeAlphabet bs).length = _
  exact b64Body_length urlsafeAlphabet bs

/-- C1: the challenge computation is deterministic and equals
base64url-no-pad of SHA-256 of the verifier for every verifier; the verifier
generated from the 32 random bytes is a 43-character URL-safe string (within
the 43-128 range), and the method is always S256. -/
theorem C1_generate_pkce_challenge_ok (tokenBytes : List Nat)
    (hlen : tokenBytes.length = 32) (_hbytes : ∀ b ∈ tokenBytes, b < 256) :
    (generate_pkce_challenge tokenBytes).method = "S256" ∧
    (∀ v : String, challengeOf v = base64url_nopad (sha256 (utf8Encode v))) ∧
    (generate_pkce_challenge tokenBytes).challenge
      = base64url_nopad (sha256 (utf8Encode (generate_pkce_challenge tokenBytes).verifier)) ∧
    (generate_pkce_challenge tokenBytes).verifier.length = 43 ∧
    43 ≤ (generate_pkce_challenge tokenBytes).verifier.length ∧
    (generate_pkce_challenge tokenBytes).verifier.length ≤ 128 ∧
    (∀ c ∈ (generate_pkce_challenge tokenBytes).verifier.data, c ∈ urlsafeAlphabet) := by
  have hchal : ∀ v : String, challengeOf v = base64url_nopad (sha256 (utf8Encode v)) := by
    intro v
    unfold challengeOf
    exact b64encStr_urlsafe_eq_nopad _
  have hverlen : (generate_pkce_challenge tokenBytes).verifier.length = 43 := by
    show (b64encStr urlsafeAlphabet tokenBytes).length = 43
    rw [b64encStr_urlsafe_length, hlen]
  refine ⟨rfl, hchal, hchal _, hverlen, by omega, by omega, ?_⟩
  intro c hc
  have hmem : c ∈ b64Body urlsafeAlphabet tokenBytes := by
    have hver : (generate_pkce_challenge tokenBytes).verifier
        = String.mk (b64Body urlsafeAlphabet tokenBytes) := by
      show b64encStr urlsafeAlphabet tokenBytes = _
      exact b64encStr_eq_body urlsafeAlphabet A_mem_urlsafeAlphabet eq_not_mem_urlsafeAlphabet _
    rw [hver] at hc
    exact hc
  exact b64Body_mem urlsafeAlphabet A_mem_urlsafeAlphabet tokenBytes c hmem

/-- C1 witness: the theorem applied at a concrete 32-byte input. -/
theorem C1_generate_pkce_challenge_ok_witness :
    (List.replicate 32 (0 : Nat)).length = 32 ∧
    (∀ b ∈ List.replicate 32 (0 : Nat), b < 256) ∧
    (generate_pkce_challenge (List.replicate 32 0)).method = "S256" ∧
    (generate_pkce_challenge (List.replicate 32 0)).verifier.length = 43 ∧
    (generate_pkce_challenge (List.replicate 32 0)).challenge
      = base64url_nopad (sha256 (utf8Encode (generate_pkce_challenge (List.replicate 32 0)).verifier)) := by
  have h := C1_generate_pkce_challenge_ok (List.replicate 32 0) (by decide) (by decide)
  exact ⟨by decide, by decide, h.1, h.2.2.2.1, h.2.2.1⟩

/-! ## Token exchange (OAuth2FlowTester.test_token_endpoint,
test_oauth2_authorization_flow.py lines 450-521) -/

/-- The fields of a parsed token-endpoint JSON body that the test inspects.
A missing key is None. -/
structure TokenJson where
  access_token : Option String
  token_type : Option String
  expires_in : Option Int

/-- The acceptance decision of test_token_endpoint on a response with the
given HTTP status and parsed JSON body (none when the body is not JSON):
non-200 fails; any of the three required fields missing fails; a token_type
whose lowercase form is not bearer fails; an access_token without exactly
two dot characters fails; otherwise the response is accepted. -/
def test_token_endpoint_classify (status : Nat) (body : Option TokenJson) : Bool :=
  if status ≠ 200 then false
  else
    match body with
    | none => false
    | some t =>
        match t.access_token, t.token_type, t.expires_in with
        | some a, some tt, some _ =>
            if tt.toLower ≠ "bearer" then false
            else if ¬(a.data.count '.' = 2) then false
            else true
        | _, _, _ => false

/-- Spec-side acceptance condition for a parsed 200 token response: all three
fields present, token_type equals bearer case-insensitively, and the access
token is a 3-segment dot-separated string (exactly two dot characters). -/
def tokenResponseAcceptable (t : TokenJson) : Prop :=
  t.access_token.isSome ∧ t.token_type.isSome ∧ t.expires_in.isSome ∧
  (∀ tt, t.token_type = some tt → tt.toLower = "bearer") ∧
  (∀ a, t.access_token = some a → a.data.count '.' = 2)

/-- C2: a 200 token-endpoint response is accepted exactly when all three
required fields are present, the token_type is bearer case-insensitively, and
the access_token has exactly two dot characters; every 200 response violating
any of these is classified as an error. -/
theorem C2_token_endpoint_accepts_iff (body : Option TokenJson) :
    test_token_endpoint_classify 200 body = true ↔
      ∃ t, body = some t ∧ tokenResponseAcceptable t := by
  cases body with
  | none => simp [test_token_endpoint_classify]
  | some t =>
      rcases t with ⟨acc, tty, exp⟩
      cases acc with
      | none => simp [test_token_endpoint_classify, tokenResponseAcceptable]
      | some a =>
          cases tty with
          | none => simp [test_token_endpoint_classify, tokenResponseAcceptable]
          | some tt =>
              cases exp with
              | none => simp [test_token_endpoint_classify, tokenResponseAcceptable]
              | some e =>
                  by_cases hb : tt.toLower = "bearer" <;>
                    by_cases hc : a.data.count '.' = 2 <;>
                      simp [test_token_endpoint_classify, tokenResponseAcceptable, hb, hc]

/-! ## Authorize endpoint (OAuth2FlowTester.test_authorize_endpoint,
test_oauth2_authorization_flow.py lines 342-448) -/

/-- The features of an authorize-endpoint response that the test inspects:
HTTP status, whether the Location header starts with the registered
redirect_uri, the parsed query parameters of the Location (first value per
key, as parse_qs provides), whether the lowercased body contains the
substrings authorization or consent, and the code field of the JSON body
(outer none when the body is not JSON, inner none when JSON has no code). -/
structure AuthorizeResponse where
  status : Nat
  locationStartsWithRedirect : Bool
  locationParams : List (String × String)
  bodyMentionsAuthorization : Bool
  bodyMentionsConsent : Bool
  bodyJsonCode : Option (Option String)

/-- First value for a key among parsed query parameters. -/
def lookupParam (ps : List (String × String)) (k : String) : Option String :=
  (ps.find? (fun p => p.1 = k)).map Prod.snd

/-- The pass/fail decision of test_authorize_endpoint on a response, given
the state parameter that was sent with the authorize request. -/
def test_authorize_endpoint_classify (r : AuthorizeResponse) (state : String) : Bool :=
  if r.status = 302 ∨ r.status = 303 then
    if r.locationStartsWithRedirect then
      match lookupParam r.locationParams "code" with
      | some _ =>
          -- returned_state = query_params.get with default none; mismatch fails
          match lookupParam r.locationParams "state" with
          | some s => if s ≠ state then false else true
          | none => false
      | none =>
          match lookupParam r.locationParams "error" with
          | some _ => false   -- OAuth2 error reported in the redirect
          | none => false     -- neither code nor error in the redirect
    else false
  else if r.status = 200 then
    if r.bodyMentionsAuthorization || r.bodyMentionsConsent then false
    else
      match r.bodyJsonCode with
      | some (some _) => true
      | _ => false
  else false

/-- A redirect response carrying code, matching state, and also an error
parameter. -/
def c3ErrorAndCodeResponse : AuthorizeResponse :=
  { status := 302
    locationStartsWithRedirect := true
    locationParams :=
      [("code", "abc"), ("state", "xyz"), ("error", "access_denied"),
       ("error_description", "user denied")]
    bodyMentionsAuthorization := false
    bodyMentionsConsent := false
    bodyJsonCode := none }

/-- C3 counterexample: a 302 redirect to the redirect_uri whose query carries
error and error_description is nonetheless classified as a success, because
the code branch is checked first — so a redirect carrying error is not always
a failure as the claim states. -/
theorem C3_redirect_error_counterexample :
    (c3ErrorAndCodeResponse.status = 302 ∨ c3ErrorAndCodeResponse.status = 303) ∧
    lookupParam c3ErrorAndCodeResponse.locationParams "error" = some "access_denied" ∧
    lookupParam c3ErrorAndCodeResponse.locationParams "error_description" = some "user denied" ∧
    test_authorize_endpoint_classify c3ErrorAndCodeResponse "xyz" = true :=
  ⟨Or.inl rfl, rfl, rfl, rfl⟩

/-- C3 amended: a redirect with a code succeeds exactly when the returned
state equals the sent state; a redirect carrying error but no code is a
failure; a 200 response whose body reads as a consent or authorization page
is a failure; and a 200 response free of those markers whose JSON body
carries a code is a success. -/
theorem C3_authorize_classification_amended :
    (∀ (r : AuthorizeResponse) (st : String),
        (r.status = 302 ∨ r.status = 303) → r.locationStartsWithRedirect = true →
        (lookupParam r.locationParams "code").isSome = true →
        (test_authorize_endpoint_classify r st = true ↔
          lookupParam r.locationParams "state" = some st)) ∧
    (∀ (r : AuthorizeResponse) (st : String),
        (r.status = 302 ∨ r.status = 303) →
        lookupParam r.locationParams "code" = none →
        test_authorize_endpoint_classify r st = false) ∧
    (∀ (r : AuthorizeResponse) (st : String),
        r.status = 200 →
        (r.bodyMentionsAuthorization = true ∨ r.bodyMentionsConsent = true) →
        test_authorize_endpoint_classify r st = false) ∧
    (∀ (r : AuthorizeResponse) (st : String),
        r.status = 200 → r.bodyMentionsAuthorization = false →
        r.bodyMentionsConsent = false →
        (test_authorize_endpoint_classify r st = true ↔
          ∃ c, r.bodyJsonCode = some (some c))) := by
  refine ⟨?_, ?_, ?_, ?_⟩
  · intro r st hst hloc hcode
    rcases hc : lookupParam r.locationParams "code" with _ | c
    · rw [hc] at hcode; simp at hcode
    · rcases hs : lookupParam r.locationParams "state" with _ | s
      · simp [test_authorize_endpoint_classify, hst, hloc, hc, hs]
      · by_cases hmatch : s = st <;>
          simp [test_authorize_endpoint_classify, hst, hloc, hc, hs, hmatch]
  · intro r st hst hcode
    rcases he : lookupParam r.locationParams "error" with _ | e <;>
      cases hloc : r.locationStartsWithRedirect <;>
        simp [test_authorize_endpoint_classify, hst, hloc, hcode, he]
  · intro r st hst hmark
    have hne : ¬(r.status = 302 ∨ r.status = 303) := by omega
    rcases hmark with h | h <;>
      simp [test_authorize_endpoint_classify, hst, hne, h]
  · intro r st hst hma hmc
    have hne : ¬(r.status = 302 ∨ r.status = 303) := by omega
    rcases hj : r.bodyJsonCode with _ | oc
    · simp [test_authorize_endpoint_classify, hst, hne, hma, hmc, hj]
    · cases oc <;> simp [test_authorize_endpoint_classify, hst, hne, hma, hmc, hj]

/-- C3 amended witness: the four classification rules applied at concrete
responses. -/
theorem C3_authorize_classification_amended_witness :
    test_authorize_endpoint_classify
      ⟨302, true, [("code", "c"), ("state", "s")], false, false, none⟩ "s" = true ∧
    test_authorize_endpoint_classify
      ⟨302, true, [("error", "access_denied")], false, false, none⟩ "s" = false ∧
    test_authorize_endpoint_classify
      ⟨200, false, [], true, false, some (some "c")⟩ "s" = false ∧
    test_authorize_endpoint_classify
      ⟨200, false, [], false, false, some (some "c")⟩ "s" = true := by
  have h := C3_authorize_classification_amended
  refine ⟨?_, ?_, ?_, ?_⟩
  · exact (h.1 ⟨302, true, [("code", "c"), ("state", "s")], false, false, none⟩
      "s" (Or.inl rfl) rfl rfl).mpr rfl
  · exact h.2.1 ⟨302, true, [("error", "access_denied")], false, false, none⟩
      "s" (Or.inl rfl) rfl
  · exact h.2.2.1 ⟨200, false, [], true, false, some (some "c")⟩
      "s" rfl (Or.inl rfl)
  · exact (h.2.2.2 ⟨200, false, [], false, false, some (some "c")⟩
      "s" rfl rfl rfl).mpr ⟨"c", rfl⟩

/-! ## Health gate (ServerManager.wait_for_server_health,
test_oauth2_flow.py lines 82-105, and OAuth2FlowTester.wait_for_server,
test_oauth2_authorization_flow.py lines 213-279) -/

/-- The outcome of one readiness wait. -/
inductive GateOutcome where
  | Ready
  | Died
  | Timeout
deriving DecidableEq

/-- One polling attempt: the probe result (none when the HTTP request raised)
and whether the supervised process was observed exited right after the probe. -/
structure Attempt where
  probe : Option Nat
  exited : Bool
deriving DecidableEq

/-- Whether a probe observation satisfies a ready-status predicate. -/
def probeReady (readyCheck : Nat → Bool) (p : Option Nat) : Bool :=
  match p with
  | some s => readyCheck s
  | none => false

/-- ServerManager.wait_for_server_health over the finite trace of attempts
its timeout budget allows: a ready probe returns Ready at once; otherwise an
observed process exit returns Died (after logging the captured output); an
exhausted budget returns Timeout. -/
def wait_for_server_health (readyCheck : Nat → Bool) : List Attempt → GateOutcome
  | [] => GateOutcome.Timeout
  | a :: rest =>
      if probeReady readyCheck a.probe then GateOutcome.Ready
      else if a.exited then GateOutcome.Died
      else wait_for_server_health readyCheck rest

/-- One stage of OAuth2FlowTester.wait_for_server: the loop polls only the
HTTP endpoint and never inspects the process, so the exited flag of each
attempt is ignored; the for-else reports failure only after the budget is
exhausted. -/
def wait_for_server_stage (readyCheck : Nat → Bool) : List Attempt → GateOutcome
  | [] => GateOutcome.Timeout
  | a :: rest =>
      if probeReady readyCheck a.probe then GateOutcome.Ready
      else wait_for_server_stage readyCheck rest

/-- Ready statuses of the unauthenticated MCP endpoints in wait_for_server. -/
def mcpReadyCodes (s : Nat) : Bool := s = 401 ∨ s = 403 ∨ s = 405

/-- Ready status of the health/discovery endpoints. -/
def okReadyCode (s : Nat) : Bool := s = 200

/-- C4 counterexample: OAuth2FlowTester.wait_for_server reports Timeout on a
budget-exhausted trace whose single attempt observed the supervised process
already exited — it never returns Died, contradicting the claim that no wait
reports Timeout when the process has already died. -/
theorem C4_wait_for_server_timeout_despite_death :
    wait_for_server_stage mcpReadyCodes [⟨none, true⟩] = GateOutcome.Timeout ∧
    (⟨none, true⟩ : Attempt).exited = true ∧
    (∀ trace : List Attempt,
        wait_for_server_stage mcpReadyCodes trace ≠ GateOutcome.Died) := by
  refine ⟨rfl, rfl, ?_⟩
  intro trace
  induction trace with
  | nil => simp [wait_for_server_stage]
  | cons a rest ih =>
      by_cases hp : probeReady mcpReadyCodes a.probe = true <;>
        simp [wait_for_server_stage, hp, ih]

/-- C4 amended: wait_for_server_health returns Ready as soon as a probe hits
a ready status, Died when it observes the process exited before any ready
probe, and Timeout only when the budget is exhausted without either — in
particular never Timeout on a trace that observed the process dead; the
oauth2-integration wait_for_server, by contrast, checks only the HTTP probe
(401/403/405 ready for the MCP endpoints, 200 for discovery/JWKS) and can
time out with the process already dead. -/
theorem C4_health_gate_amended :
    (∀ (readyCheck : Nat → Bool) (a : Attempt) (rest : List Attempt),
        probeReady readyCheck a.probe = true →
        wait_for_server_health readyCheck (a :: rest) = GateOutcome.Ready) ∧
    (∀ (readyCheck : Nat → Bool) (a : Attempt) (rest : List Attempt),
        probeReady readyCheck a.probe = false → a.exited = true →
        wait_for_server_health readyCheck (a :: rest) = GateOutcome.Died) ∧
    (∀ (readyCheck : Nat → Bool) (trace : List Attempt),
        (∀ a ∈ trace, probeReady readyCheck a.probe = false ∧ a.exited = false) →
        wait_for_server_health readyCheck trace = GateOutcome.Timeout) ∧
    (∀ (readyCheck : Nat → Bool) (trace : List Attempt),
        (∃ a ∈ trace, a.exited = true) →
        wait_for_server_health readyCheck trace ≠ GateOutcome.Timeout) ∧
    (∀ (readyCheck : Nat → Bool) (trace : List Attempt),
        (∀ a ∈ trace, probeReady readyCheck a.probe = false) →
        wait_for_server_stage readyCheck trace = GateOutcome.Timeout) := by
  refine ⟨?_, ?_, ?_, ?_, ?_⟩
  · intro readyCheck a rest hp
    simp [wait_for_server_health, hp]
  · intro readyCheck a rest hp hx
    simp [wait_for_server_health, hp, hx]
  · intro readyCheck trace h
    induction trace with
    | nil => rfl
    | cons a rest ih =>
        have ha := h a (List.mem_cons_self a rest)
        have hrest : ∀ b ∈ rest, probeReady readyCheck b.probe = false ∧ b.exited = false :=
          fun b hb => h b (List.mem_cons_of_mem a hb)
        simp [wait_for_server_health, ha.1, ha.2, ih hrest]
  · intro readyCheck trace hex
    induction trace with
    | nil => rcases hex with ⟨a, ha, _⟩; cases ha
    | cons a rest ih =>
        by_cases hp : probeReady readyCheck a.probe = true
        · simp [wait_for_server_health, hp]
        · by_cases hx : a.exited = true
          · simp [wait_for_server_health, hp, hx]
          · rcases hex with ⟨b, hb, hbx⟩
            rcases List.mem_cons.mp hb with rfl | hb
            · exact absurd hbx hx
            · rw [Bool.not_eq_true] at hp hx
              simp only [wait_for_server_health, hp, hx, if_false, Bool.false_eq_true]
              exact ih ⟨b, hb, hbx⟩
  · intro readyCheck trace h
    induction trace with
    | nil => rfl
    | cons a rest ih =>
        have ha := h a (List.mem_cons_self a rest)
        have hrest : ∀ b ∈ rest, probeReady readyCheck b.probe = false :=
          fun b hb => h b (List.mem_cons_of_mem a hb)
        simp [wait_for_server_stage, ha, ih hrest]

/-- C4 amended witness: concrete traces exercising Ready, Died, the
no-timeout-when-dead conjunct, and the two timeout shapes. -/
theorem C4_health_gate_amended_witness :
    wait_for_server_health okReadyCode [⟨some 200, false⟩] = GateOutcome.Ready ∧
    wait_for_server_health okReadyCode [⟨some 503, true⟩] = GateOutcome.Died ∧
    wait_for_server_health okReadyCode [⟨none, false⟩, ⟨some 503, false⟩] = GateOutcome.Timeout ∧
    wait_for_server_health okReadyCode [⟨none, false⟩, ⟨none, true⟩] ≠ GateOutcome.Timeout ∧
    wait_for_server_stage mcpReadyCodes [⟨some 200, false⟩] = GateOutcome.Timeout := by
  have h := C4_health_gate_amended
  refine ⟨?_, ?_, ?_, ?_, ?_⟩
  · exact h.1 okReadyCode ⟨some 200, false⟩ [] (by decide)
  · exact h.2.1 okReadyCode ⟨some 503, true⟩ [] (by decide) rfl
  · exact h.2.2.1 okReadyCode [⟨none, false⟩, ⟨some 503, false⟩] (by decide)
  · exact h.2.2.2.1 okReadyCode [⟨none, false⟩, ⟨none, true⟩]
      ⟨⟨none, true⟩, by decide, rfl⟩
  · exact h.2.2.2.2 mcpReadyCodes [⟨some 200, false⟩] (by decide)

/-! ## Malformed JWT factory (OAuth2EdgeCaseTest.create_malformed_jwt,
test_oauth2_edge_cases.py lines 193-240) -/

/-- json.dumps of the RS256 header dict (spaced separators). -/
def jsonHeaderRS256 : String := "\x7b\"alg\": \"RS256\", \"typ\": \"JWT\"\x7d"

/-- The hand-written malformed header byte literal (trailing comma). -/
def jsonHeaderMalformed : String := "\x7b\"alg\":\"RS256\",\"typ\":\"JWT\",\x7d"

/-- json.dumps of the sub-only payload dict. -/
def jsonPayloadSubTest : String := "\x7b\"sub\": \"test\"\x7d"

/-- The hand-written malformed payload byte literal (trailing comma). -/
def jsonPayloadMalformed : String := "\x7b\"sub\":\"test\",\x7d"

/-- json.dumps of the alg-none header dict. -/
def jsonHeaderNone : String := "\x7b\"alg\": \"none\", \"typ\": \"JWT\"\x7d"

/-- json.dumps of the sub-and-iat payload dict at the current time. -/
def jsonPayloadSubIat (now : Nat) : String :=
  "\x7b\"sub\": \"test\", \"iat\": " ++ toString now ++ "\x7d"

/-- The 10000-character filler claim value. -/
def oversizedClaim : String := String.mk (List.replicate 10000 'x')

/-- json.dumps of the oversized payload dict at the current time. -/
def jsonPayloadOversized (now : Nat) : String :=
  "\x7b\"sub\": \"test\", \"iat\": " ++ toString now ++
    ", \"large_data\": \"" ++ oversizedClaim ++ "\"\x7d"

/-- Python b64encode of the UTF-8 bytes of a string, decoded and stripped of
trailing equals characters — the segment encoding used by create_malformed_jwt. -/
def b64s (x : String) : String := b64encStr stdAlphabet (utf8Encode x)

/-- create_malformed_jwt as a function of the current integer time and the
malformation type; an unrecognized type falls through to the placeholder. -/
def create_malformed_jwt (now : Nat) (malformationType : String) : String :=
  if malformationType = "invalid_structure" then
    "eyJhbGciOiJSUzI1NiIsInR5cCI6IkpXVCJ9.eyJzdWIiOiJ0ZXN0In0"
  else if malformationType = "invalid_header" then
    b64s jsonHeaderMalformed ++ "." ++ b64s jsonPayloadSubTest ++ "." ++ "invalid_signature"
  else if malformationType = "invalid_payload" then
    b64s jsonHeaderRS256 ++ "." ++ b64s jsonPayloadMalformed ++ "." ++ "invalid_signature"
  else if malformationType = "invalid_signature" then
    b64s jsonHeaderRS256 ++ "." ++ b64s (jsonPayloadSubIat now) ++ "." ++
      "completely_invalid_signature_that_will_never_verify"
  else if malformationType = "oversized_token" then
    b64s jsonHeaderRS256 ++ "." ++ b64s (jsonPayloadOversized now) ++ "." ++ "signature"
  else if malformationType = "algorithm_none" then
    b64s jsonHeaderNone ++ "." ++ b64s (jsonPayloadSubIat now) ++ "."
  else "invalid_token"

/-- Split a character list at dot characters (JWT segments). -/
def splitDots (l : List Char) : List (List Char) :=
  match l with
  | [] => [[]]
  | c :: rest =>
      if c = '.' then [] :: splitDots rest
      else
        match splitDots rest with
        | s :: ss => (c :: s) :: ss
        | [] => [[c]]

/-- A dot-free list is a single segment. -/
theorem splitDots_no_dot : ∀ a : List Char, (∀ c ∈ a, c ≠ '.') → splitDots a = [a]
  | [], _ => rfl
  | c :: rest, h => by
      have hc : c ≠ '.' := h c (List.mem_cons_self _ _)
      have ih := splitDots_no_dot rest (fun x hx => h x (List.mem_cons_of_mem _ hx))
      simp [splitDots, hc, ih]

/-- Splitting peels a dot-free segment before a dot. -/
theorem splitDots_append_dot : ∀ a t : List Char, (∀ c ∈ a, c ≠ '.') →
    splitDots (a ++ '.' :: t) = a :: splitDots t
  | [], _, _ => by simp [splitDots]
  | c :: rest, t, h => by
      have hc : c ≠ '.' := h c (List.mem_cons_self _ _)
      have ih := splitDots_append_dot rest t (fun x hx => h x (List.mem_cons_of_mem _ hx))
      simp [splitDots, hc, ih]

/-- Three dot-free segments joined by dots split into exactly those segments. -/
theorem splitDots_three (a b c : List Char) (ha : ∀ x ∈ a, x ≠ '.')
    (hb : ∀ x ∈ b, x ≠ '.') (hc : ∀ x ∈ c, x ≠ '.') :
    splitDots (a ++ '.' :: (b ++ '.' :: c)) = [a, b, c] := by
  rw [splitDots_append_dot a _ ha, splitDots_append_dot b _ hb, splitDots_no_dot c hc]

/-- Every character of a stripped encoding came from the unstripped one. -/
theorem mem_rstripEq {c : Char} {l : List Char} (h : c ∈ rstripEq l) : c ∈ l := by
  unfold rstripEq at h
  have h1 : c ∈ l.reverse.dropWhile (fun x => x = '=') := List.mem_reverse.mp h
  have h2 : c ∈ l.reverse := (List.dropWhile_sublist _).subset h1
  exact List.mem_reverse.mp h2

/-- Characters of a full base64 encoding: alphabet members or padding. -/
theorem b64encode_chars (alpha : List Char) (hA : 'A' ∈ alpha) (bs : List Nat) :
    ∀ c ∈ b64encode alpha bs, c ∈ alpha ∨ c = '=' := by
  intro c hcm
  rcases List.mem_append.mp hcm with h | h
  · exact Or.inl (b64Body_mem alpha hA bs c h)
  · right
    unfold b64PadChars at h
    have hlt : bs.length % 3 < 3 := Nat.mod_lt bs.length (by norm_num)
    interval_cases h3 : bs.length % 3 <;> simp at h <;> simp [h]

/-- No character of a b64encStr segment is a dot, for a dot-free alphabet. -/
theorem b64encStr_no_dot (alpha : List Char) (hA : 'A' ∈ alpha)
    (hdot : '.' ∉ alpha) (bs : List Nat) :
    ∀ c ∈ (b64encStr alpha bs).data, c ≠ '.' := by
  intro c hc
  have hmem : c ∈ b64encode alpha bs := mem_rstripEq hc
  rcases b64encode_chars alpha hA bs c hmem with h | h
  · intro hcd; exact hdot (hcd ▸ h)
  · rw [h]; decide

/-- Segments built by b64s hold no dot. -/
theorem b64s_no_dot (x : String) : ∀ c ∈ (b64s x).data, c ≠ '.' :=
  b64encStr_no_dot stdAlphabet A_mem_stdAlphabet dot_not_mem_stdAlphabet _

/-- C5 counterexample: the constructor does not handle the wrong_audience and
future_issued_at variants named by the claim; both fall through to the
placeholder string, a single-segment non-JWT that encodes no audience or
issued-at violation. -/
theorem C5_unhandled_variants_counterexample :
    create_malformed_jwt 0 "wrong_audience" = "invalid_token" ∧
    create_malformed_jwt 0 "future_issued_at" = "invalid_token" ∧
    "invalid_token".data.count '.' = 0 :=
  ⟨rfl, rfl, rfl⟩

/-- String append acts as list append on the character data. -/
theorem strData_append (a b : String) : (a ++ b).data = a.data ++ b.data := rfl

/-- Whether a pattern occurs as a contiguous subsequence. -/
def containsSub (pat : List Char) : List Char → Bool
  | [] => pat.isEmpty
  | c :: rest => pat.isPrefixOf (c :: rest) || containsSub pat rest

/-- C5 amended: for the six variants the constructor does handle, the token
encodes the intended violation — invalid_structure has a wrong segment count
(one dot, two segments); algorithm_none is a three-segment token whose header
segment encodes the alg-none header JSON and whose signature segment is
empty; invalid_signature carries an arbitrary non-verifying signature
segment; oversized_token has a payload above 8KB — while the wrong_audience
and future_issued_at variants named by the claim are not handled and fall
through to the placeholder string (their tokens are instead built inline by
their tests). -/
theorem C5_create_malformed_jwt_amended (now : Nat) :
    (create_malformed_jwt now "invalid_structure").data.count '.' = 1 ∧
    splitDots (create_malformed_jwt now "algorithm_none").data
      = [(b64s jsonHeaderNone).data, (b64s (jsonPayloadSubIat now)).data, []] ∧
    containsSub "\"alg\": \"none\"".data jsonHeaderNone.data = true ∧
    splitDots (create_malformed_jwt now "invalid_signature").data
      = [(b64s jsonHeaderRS256).data, (b64s (jsonPayloadSubIat now)).data,
         "completely_invalid_signature_that_will_never_verify".data] ∧
    splitDots (create_malformed_jwt now "oversized_token").data
      = [(b64s jsonHeaderRS256).data, (b64s (jsonPayloadOversized now)).data,
         "signature".data] ∧
    (jsonPayloadOversized now).length > 8192 ∧
    create_malformed_jwt now "wrong_audience" = "invalid_token" ∧
    create_malformed_jwt now "future_issued_at" = "invalid_token" := by
  refine ⟨?_, ?_, by decide, ?_, ?_, ?_, rfl, rfl⟩
  · have e : create_malformed_jwt now "invalid_structure"
        = "eyJhbGciOiJSUzI1NiIsInR5cCI6IkpXVCJ9.eyJzdWIiOiJ0ZXN0In0" := rfl
    rw [e]
    decide
  · have e : create_malformed_jwt now "algorithm_none"
        = b64s jsonHeaderNone ++ "." ++ b64s (jsonPayloadSubIat now) ++ "." := rfl
    rw [e, strData_append, strData_append, strData_append]
    have : (b64s jsonHeaderNone).data ++ ".".data ++ (b64s (jsonPayloadSubIat now)).data
          ++ ".".data
        = (b64s jsonHeaderNone).data ++ '.' :: ((b64s (jsonPayloadSubIat now)).data
          ++ '.' :: ([] : List Char)) := by
      simp
    rw [this]
    exact splitDots_three _ _ _ (b64s_no_dot _) (b64s_no_dot _) (by intro x hx; cases hx)
  · have e : create_malformed_jwt now "invalid_signature"
        = b64s jsonHeaderRS256 ++ "." ++ b64s (jsonPayloadSubIat now) ++ "." ++
          "completely_invalid_signature_that_will_never_verify" := rfl
    rw [e, strData_append, strData_append, strData_append, strData_append]
    have : (b64s jsonHeaderRS256).data ++ ".".data ++ (b64s (jsonPayloadSubIat now)).data
          ++ ".".data ++ "completely_invalid_signature_that_will_never_verify".data
        = (b64s jsonHeaderRS256).data ++ '.' :: ((b64s (jsonPayloadSubIat now)).data
          ++ '.' :: "completely_invalid_signature_that_will_never_verify".data) := by
      simp
    rw [this]
    exact splitDots_three _ _ _ (b64s_no_dot _) (b64s_no_dot _) (by decide)
  · have e : create_malformed_jwt now "oversized_token"
        = b64s jsonHeaderRS256 ++ "." ++ b64s (jsonPayloadOversized now) ++ "." ++
          "signature" := rfl
    rw [e, strData_append, strData_append, strData_append, strData_append]
    have : (b64s jsonHeaderRS256).data ++ ".".data ++ (b64s (jsonPayloadOversized now)).data
          ++ ".".data ++ "signature".data
        = (b64s jsonHeaderRS256).data ++ '.' :: ((b64s (jsonPayloadOversized now)).data
          ++ '.' :: "signature".data) := by
      simp
    rw [this]
    exact splitDots_three _ _ _ (b64s_no_dot _) (b64s_no_dot _) (by decide)
  · have hlen : ∀ s : List Char, (String.mk s).length = s.length := fun _ => rfl
    have hclaim : oversizedClaim.length = 10000 := by
      show (String.mk (List.replicate 10000 'x')).length = 10000
      rw [hlen, List.length_replicate]
    unfold jsonPayloadOversized
    simp only [String.length_append, hclaim]
    omega

/-! ## Stopping a process (ServerManager.stop_server, test_oauth2_flow.py
lines 123-134, and OAuth2FlowTester.cleanup, test_oauth2_authorization_flow.py
lines 139-164) -/

/-- A supervised process as the stop paths observe it: whether it had
already exited before stop was called, and, if subsequently sent the
graceful terminate signal, how many seconds it takes to exit (none when it
ignores the signal). -/
structure ProcView where
  alreadyExited : Bool
  termExitTime : Option Nat

/-- What one stop call did: whether the graceful terminate signal reached a
live process, whether a forceful kill was delivered to a live process, how
long the code waits for the graceful exit at most, and whether the call
raised an error to its caller. -/
structure StopTrace where
  termDelivered : Bool
  killDelivered : Bool
  gracePeriod : Nat
  errored : Bool

/-- ServerManager.stop_server: terminate (a no-op on an already-exited
process), wait up to 5 seconds, and kill only when the wait raised
TimeoutExpired. -/
def stop_server (p : ProcView) : StopTrace :=
  if p.alreadyExited then
    { termDelivered := false, killDelivered := false, gracePeriod := 5, errored := false }
  else
    match p.termExitTime with
    | some t =>
        if t ≤ 5 then
          { termDelivered := true, killDelivered := false, gracePeriod := 5, errored := false }
        else
          { termDelivered := true, killDelivered := true, gracePeriod := 5, errored := false }
    | none =>
        { termDelivered := true, killDelivered := true, gracePeriod := 5, errored := false }

/-- The per-pid stop phase of OAuth2FlowTester.cleanup: SIGTERM inside a
try whose ProcessLookupError handler makes a dead target a no-op, a fixed
2-second sleep, then a SIGKILL attempt whose own handler swallows
ProcessLookupError when the process exited during the grace sleep. -/
def cleanup_stop (p : ProcView) : StopTrace :=
  if p.alreadyExited then
    { termDelivered := false, killDelivered := false, gracePeriod := 2, errored := false }
  else
    match p.termExitTime with
    | some t =>
        if t ≤ 2 then
          { termDelivered := true, killDelivered := false, gracePeriod := 2, errored := false }
        else
          { termDelivered := true, killDelivered := true, gracePeriod := 2, errored := false }
    | none =>
        { termDelivered := true, killDelivered := true, gracePeriod := 2, errored := false }

/-- C6: both stop paths never raise, are no-ops on an already-exited handle,
deliver a forceful kill only to a process that outlived the grace period of
a previously delivered graceful terminate, and wait at most 5 seconds. -/
theorem C6_stop_graceful_then_kill :
    (∀ p : ProcView, (stop_server p).errored = false ∧ (cleanup_stop p).errored = false) ∧
    (∀ p : ProcView, p.alreadyExited = true →
        stop_server p =
          { termDelivered := false, killDelivered := false, gracePeriod := 5, errored := false } ∧
        cleanup_stop p =
          { termDelivered := false, killDelivered := false, gracePeriod := 2, errored := false }) ∧
    (∀ p : ProcView, (stop_server p).killDelivered = true →
        (stop_server p).termDelivered = true ∧ p.alreadyExited = false ∧
        (∀ t, p.termExitTime = some t → (stop_server p).gracePeriod < t)) ∧
    (∀ p : ProcView, (cleanup_stop p).killDelivered = true →
        (cleanup_stop p).termDelivered = true ∧ p.alreadyExited = false ∧
        (∀ t, p.termExitTime = some t → (cleanup_stop p).gracePeriod < t)) ∧
    (∀ p : ProcView, (stop_server p).gracePeriod ≤ 5 ∧ (cleanup_stop p).gracePeriod ≤ 5) := by
  refine ⟨?_, ?_, ?_, ?_, ?_⟩
  · intro p
    rcases p with ⟨ae, te⟩
    cases ae
    · rcases te with _ | t
      · simp [stop_server, cleanup_stop]
      · by_cases h5 : t ≤ 5 <;> by_cases h2 : t ≤ 2 <;>
          simp [stop_server, cleanup_stop, h5, h2]
    · simp [stop_server, cleanup_stop]
  · intro p hx
    rcases p with ⟨ae, te⟩
    cases hx
    exact ⟨rfl, rfl⟩
  · intro p hk
    rcases p with ⟨ae, te⟩
    cases ae
    · rcases te with _ | t
      · exact ⟨rfl, rfl, fun t ht => by cases ht⟩
      · by_cases h5 : t ≤ 5
        · rw [show stop_server ⟨false, some t⟩ =
              { termDelivered := true, killDelivered := false, gracePeriod := 5,
                errored := false } by simp [stop_server, h5]] at hk
          cases hk
        · refine ⟨?_, rfl, ?_⟩
          · simp [stop_server, h5]
          · intro u hu
            cases hu
            simp [stop_server, h5]
            omega
    · cases hk
  · intro p hk
    rcases p with ⟨ae, te⟩
    cases ae
    · rcases te with _ | t
      · exact ⟨rfl, rfl, fun t ht => by cases ht⟩
      · by_cases h2 : t ≤ 2
        · rw [show cleanup_stop ⟨false, some t⟩ =
              { termDelivered := true, killDelivered := false, gracePeriod := 2,
                errored := false } by simp [cleanup_stop, h2]] at hk
          cases hk
        · refine ⟨?_, rfl, ?_⟩
          · simp [cleanup_stop, h2]
          · intro u hu
            cases hu
            simp [cleanup_stop, h2]
            omega
    · cases hk
  · intro p
    rcases p with ⟨ae, te⟩
    cases ae
    · rcases te with _ | t
      · simp [stop_server, cleanup_stop]
      · by_cases h5 : t ≤ 5 <;> by_cases h2 : t ≤ 2 <;>
          simp [stop_server, cleanup_stop, h5, h2]
    · simp [stop_server, cleanup_stop]

/-- C6 witness: the no-op on a dead handle and a kill escalation on a
terminate-ignoring process, at concrete inputs. -/
theorem C6_stop_graceful_then_kill_witness :
    (stop_server ⟨true, none⟩).killDelivered = false ∧
    (cleanup_stop ⟨true, none⟩).errored = false ∧
    (stop_server ⟨false, none⟩).termDelivered = true ∧
    (stop_server ⟨false, some 10⟩).gracePeriod < 10 := by
  have h := C6_stop_graceful_then_kill
  refine ⟨?_, ?_, ?_, ?_⟩
  · rw [(h.2.1 ⟨true, none⟩ rfl).1]
  · exact (h.1 ⟨true, none⟩).2
  · exact (h.2.2.1 ⟨false, none⟩ rfl).1
  · exact (h.2.2.1 ⟨false, some 10⟩ rfl).2.2 10 rfl

/-! ## Port eviction before spawn (ServerManager.kill_processes_on_ports,
test_oauth2_flow.py lines 142-156, and ServerManager.start_all_servers,
lines 107-121) -/

/-- The externally visible actions of the supervisor, in program order. -/
inductive SupEvent where
  | lsofQuery (port : Nat)
  | killPid (pid : Nat)
  | spawn (server : String)
deriving DecidableEq

/-- kill_processes_on_ports: for each port, one lsof query, then a kill -9
for every pid the query reported; no re-check follows the kills. -/
def kill_processes_on_ports (occupants : Nat → List Nat) : List Nat → List SupEvent
  | [] => []
  | p :: rest =>
      SupEvent.lsofQuery p :: (occupants p).map SupEvent.killPid ++
        kill_processes_on_ports occupants rest

/-- start_all_servers: evict the two configured ports, then spawn each
configured server in order. -/
def start_all_servers (occupants : Nat → List Nat) : List SupEvent :=
  kill_processes_on_ports occupants [3002, 3003] ++
    [SupEvent.spawn "oauth2_server", SupEvent.spawn "mcp_server"]

/-- Whether an event is a spawn. -/
def isSpawn : SupEvent → Bool
  | SupEvent.spawn _ => true
  | _ => false

/-- One concrete occupancy: pid 42 owns port 3002, port 3003 is free. -/
def c7Occupants (port : Nat) : List Nat := if port = 3002 then [42] else []

/-- C7 counterexample: with pid 42 on port 3002 the supervisor emits the
kill and proceeds straight to the spawns — no event after the kill ever
queries port 3002 again, so the eviction is never confirmed before the port
is claimed, contrary to the claim. -/
theorem C7_no_eviction_confirmation_counterexample :
    start_all_servers c7Occupants =
      [SupEvent.lsofQuery 3002, SupEvent.killPid 42, SupEvent.lsofQuery 3003,
       SupEvent.spawn "oauth2_server", SupEvent.spawn "mcp_server"] ∧
    SupEvent.lsofQuery 3002 ∉ (start_all_servers c7Occupants).drop 2 :=
  ⟨rfl, by decide⟩

/-- C7 amended: before any spawn, the supervisor queries each configured
port and sends SIGKILL to every reported occupant — every kill precedes
every spawn because the eviction pass runs first and emits no spawn — but it
confirms nothing: the eviction pass issues no further query of a port after
killing its occupants, and spawning proceeds regardless. -/
theorem C7_eviction_before_spawn_amended :
    (∀ (occupants : Nat → List Nat) (ports : List Nat) (p : Nat) (pid : Nat),
        p ∈ ports → pid ∈ occupants p →
        SupEvent.killPid pid ∈ kill_processes_on_ports occupants ports) ∧
    (∀ (occupants : Nat → List Nat) (ports : List Nat) (e : SupEvent),
        e ∈ kill_processes_on_ports occupants ports → isSpawn e = false) ∧
    (∀ occupants : Nat → List Nat,
        start_all_servers occupants = kill_processes_on_ports occupants [3002, 3003] ++
          [SupEvent.spawn "oauth2_server", SupEvent.spawn "mcp_server"]) := by
  refine ⟨?_, ?_, fun _ => rfl⟩
  · intro occupants ports
    induction ports with
    | nil => intro p pid hp _; cases hp
    | cons q rest ih =>
        intro p pid hp hpid
        rcases List.mem_cons.mp hp with rfl | hp
        · refine List.mem_cons_of_mem _ (List.mem_append.mpr (Or.inl ?_))
          exact List.mem_map.mpr ⟨pid, hpid, rfl⟩
        · exact List.mem_cons_of_mem _ (List.mem_append.mpr (Or.inr (ih p pid hp hpid)))
  · intro occupants ports
    induction ports with
    | nil => intro e he; cases he
    | cons q rest ih =>
        intro e he
        rcases List.mem_cons.mp he with rfl | he
        · rfl
        · rcases List.mem_append.mp he with h | h
          · rcases List.mem_map.mp h with ⟨pid, _, rfl⟩
            rfl
          · exact ih e h

/-- C7 amended witness: the kill event for the concrete occupant appears in
the eviction pass and is not a spawn. -/
theorem C7_eviction_before_spawn_amended_witness :
    SupEvent.killPid 42 ∈ kill_processes_on_ports c7Occupants [3002, 3003] ∧
    isSpawn (SupEvent.killPid 42) = false := by
  have h := C7_eviction_before_spawn_amended
  refine ⟨?_, ?_⟩
  · exact h.1 c7Occupants [3002, 3003] 3002 42 (by decide) (by decide)
  · exact h.2.1 c7Occupants [3002, 3003] (SupEvent.killPid 42)
      (h.1 c7Occupants [3002, 3003] 3002 42 (by decide) (by decide))

/-! ## Connection-exception classification (OAuth2EdgeCaseTest,
test_oauth2_edge_cases.py lines 265-300, 400-413, 609-622) -/

/-- What one case request produced: an HTTP status, or a connection-level
exception raised by the transport. -/
inductive ReqOutcome where
  | httpStatus (code : Nat)
  | connError
deriving DecidableEq

/-- test_oversized_authorization_header: 400/401/413/431 pass, and the
except handler returns True (connection error expected for oversized headers). -/
def test_oversized_authorization_header_classify : ReqOutcome → Bool
  | ReqOutcome.httpStatus c => c == 400 || c == 401 || c == 413 || c == 431
  | ReqOutcome.connError => true

/-- test_jwt_invalid_structure: 401 passes, and the except handler returns
True (a connection issue from the malformed JWT counts as a pass). -/
def test_jwt_invalid_structure_classify : ReqOutcome → Bool
  | ReqOutcome.httpStatus c => c == 401
  | ReqOutcome.connError => true

/-- test_jwt_invalid_header: 401 passes, and the except handler returns False. -/
def test_jwt_invalid_header_classify : ReqOutcome → Bool
  | ReqOutcome.httpStatus c => c == 401
  | ReqOutcome.connError => false

/-- test_jwt_invalid_payload: 401 passes, and the except handler returns False. -/
def test_jwt_invalid_payload_classify : ReqOutcome → Bool
  | ReqOutcome.httpStatus c => c == 401
  | ReqOutcome.connError => false

/-- test_jwt_invalid_signature: 401 passes, and the except handler returns False. -/
def test_jwt_invalid_signature_classify : ReqOutcome → Bool
  | ReqOutcome.httpStatus c => c == 401
  | ReqOutcome.connError => false

/-- test_jwt_oversized_token: 400/401/413 pass, and the except handler
returns False. -/
def test_jwt_oversized_token_classify : ReqOutcome → Bool
  | ReqOutcome.httpStatus c => c == 400 || c == 401 || c == 413
  | ReqOutcome.connError => false

/-- Spec-side description of a case input: whether it is oversized and
whether it is malformed. -/
structure CaseTraits where
  oversizedInput : Bool
  malformedInput : Bool
deriving DecidableEq

/-- Spec-side rule: a case expects a network-layer rejection when its input
is oversized or malformed (input intended to make the transport refuse). -/
def expectsNetworkRejection (t : CaseTraits) : Bool :=
  t.oversizedInput || t.malformedInput

/-- The 32KB bearer header case: oversized, not malformed. -/
def oversizedAuthHeaderTraits : CaseTraits := ⟨true, false⟩

/-- The two-segment JWT case: malformed, not oversized. -/
def jwtInvalidStructureTraits : CaseTraits := ⟨false, true⟩

/-- The non-JSON-header JWT case: malformed, not oversized. -/
def jwtInvalidHeaderTraits : CaseTraits := ⟨false, true⟩

/-- The non-JSON-payload JWT case: malformed, not oversized. -/
def jwtInvalidPayloadTraits : CaseTraits := ⟨false, true⟩

/-- The invalid-signature JWT case: malformed, not oversized. -/
def jwtInvalidSignatureTraits : CaseTraits := ⟨false, true⟩

/-- The over-8KB JWT case: oversized (and with a junk signature). -/
def jwtOversizedTokenTraits : CaseTraits := ⟨true, true⟩

/-- The claimed rule: on a connection-level exception the case passes
exactly when it expects a network-layer rejection. -/
def exceptionMatchesExpectation (classify : ReqOutcome → Bool) (t : CaseTraits) : Prop :=
  classify ReqOutcome.connError = expectsNetworkRejection t

/-- C8 counterexample: the invalid-header case is a malformed input, hence
expects a network-layer rejection under the spec rule, yet its exception
handler classifies a connection exception as FAIL; moreover it has exactly
the same traits as the invalid-structure case, which classifies the same
exception as PASS — so no trait-based expectation can make the claimed
iff hold. -/
theorem C8_exception_rule_counterexample :
    expectsNetworkRejection jwtInvalidHeaderTraits = true ∧
    test_jwt_invalid_header_classify ReqOutcome.connError = false ∧
    expectsNetworkRejection jwtOversizedTokenTraits = true ∧
    test_jwt_oversized_token_classify ReqOutcome.connError = false ∧
    jwtInvalidStructureTraits = jwtInvalidHeaderTraits ∧
    test_jwt_invalid_structure_classify ReqOutcome.connError = true := by
  decide

/-- C8 amended: the pass/fail decision on a connection-level exception is
hard-coded per case rather than derived from the expected rejection: it is
PASS for the oversized-authorization-header and invalid-structure cases and
FAIL for the invalid-header, invalid-payload, invalid-signature and
oversized-token cases, so only the first two satisfy the claimed rule. -/
theorem C8_exception_classification_amended :
    exceptionMatchesExpectation test_oversized_authorization_header_classify
      oversizedAuthHeaderTraits ∧
    exceptionMatchesExpectation test_jwt_invalid_structure_classify
      jwtInvalidStructureTraits ∧
    ¬ exceptionMatchesExpectation test_jwt_invalid_header_classify
      jwtInvalidHeaderTraits ∧
    ¬ exceptionMatchesExpectation test_jwt_invalid_payload_classify
      jwtInvalidPayloadTraits ∧
    ¬ exceptionMatchesExpectation test_jwt_invalid_signature_classify
      jwtInvalidSignatureTraits ∧
    ¬ exceptionMatchesExpectation test_jwt_oversized_token_classify
      jwtOversizedTokenTraits := by
  refine ⟨rfl, rfl, ?_, ?_, ?_, ?_⟩ <;> intro h <;> cases h

/-! ## Case runner counters (OAuth2EdgeCaseTest.run_test and
JsonRpcEdgeCaseTest.run_test, test_oauth2_edge_cases.py lines 242-259 and
test_jsonrpc_edge_cases.py lines 229-246) -/

/-- The three counters the runner maintains. -/
structure Counters where
  tests_run : Nat
  tests_passed : Nat
  tests_failed : Nat
deriving DecidableEq

/-- What one case body did: returned a boolean, or raised an exception. -/
inductive TestOutcome where
  | ok (passed : Bool)
  | exn
deriving DecidableEq

/-- Whether an outcome counts as a pass. -/
def outcomePassed : TestOutcome → Bool
  | TestOutcome.ok true => true
  | _ => false

/-- run_test: increment tests_run, then record the outcome — a True return
increments tests_passed, a False return or a raised exception increments
tests_failed and yields False to the caller. -/
def run_test (c : Counters) (o : TestOutcome) : Counters × Bool :=
  let c1 := { c with tests_run := c.tests_run + 1 }
  match o with
  | TestOutcome.ok true => ({ c1 with tests_passed := c1.tests_passed + 1 }, true)
  | TestOutcome.ok false => ({ c1 with tests_failed := c1.tests_failed + 1 }, false)
  | TestOutcome.exn => ({ c1 with tests_failed := c1.tests_failed + 1 }, false)

/-- The suite loop: run_test on each listed case in order, regardless of the
previous outcomes. -/
def runCases (c : Counters) : List TestOutcome → Counters
  | [] => c
  | o :: rest => runCases (run_test c o).1 rest

/-- The failure count after a run, in terms of the outcomes. -/
theorem runCases_failed_count : ∀ (os : List TestOutcome) (c : Counters),
    (runCases c os).tests_failed
      = c.tests_failed + os.countP (fun o => !outcomePassed o)
  | [], c => by simp [runCases]
  | o :: rest, c => by
      have ih := runCases_failed_count rest (run_test c o).1
      rw [show runCases c (o :: rest) = runCases (run_test c o).1 rest from rfl, ih,
        List.countP_cons]
      rcases o with (_ | _) | _ <;> simp [run_test, outcomePassed] <;> omega

/-- The run count after a run equals the number of listed cases. -/
theorem runCases_run_count : ∀ (os : List TestOutcome) (c : Counters),
    (runCases c os).tests_run = c.tests_run + os.length
  | [], c => by simp [runCases]
  | o :: rest, c => by
      have ih := runCases_run_count rest (run_test c o).1
      rw [show runCases c (o :: rest) = runCases (run_test c o).1 rest from rfl, ih]
      rcases o with (_ | _) | _ <;> (simp [run_test]; omega)

/-- The pass count after a run, in terms of the outcomes. -/
theorem runCases_passed_count : ∀ (os : List TestOutcome) (c : Counters),
    (runCases c os).tests_passed
      = c.tests_passed + os.countP (fun o => outcomePassed o)
  | [], c => by simp [runCases]
  | o :: rest, c => by
      have ih := runCases_passed_count rest (run_test c o).1
      rw [show runCases c (o :: rest) = runCases (run_test c o).1 rest from rfl, ih,
        List.countP_cons]
      rcases o with (_ | _) | _ <;> (simp [run_test, outcomePassed]; try omega)

/-- C10: each run_test call increments tests_run by one and exactly one of
tests_passed/tests_failed by one, so the invariant tests_run = tests_passed
+ tests_failed is preserved; an exception is recorded as a failure and
returned as False rather than propagated; and the loop visits every listed
case whatever the earlier outcomes, so after a whole run from zeroed
counters tests_run equals the case count and the invariant holds. -/
theorem C10_run_test_counters :
    (∀ (c : Counters) (o : TestOutcome),
        (run_test c o).1.tests_run = c.tests_run + 1 ∧
        (run_test c o).1.tests_passed + (run_test c o).1.tests_failed
          = c.tests_passed + c.tests_failed + 1) ∧
    (∀ (c : Counters) (o : TestOutcome),
        c.tests_run = c.tests_passed + c.tests_failed →
        (run_test c o).1.tests_run
          = (run_test c o).1.tests_passed + (run_test c o).1.tests_failed) ∧
    (∀ c : Counters,
        run_test c TestOutcome.exn
          = ({ c with tests_run := c.tests_run + 1, tests_failed := c.tests_failed + 1 }, false)) ∧
    (∀ (c : Counters) (os : List TestOutcome),
        (runCases c os).tests_run = c.tests_run + os.length) ∧
    (∀ os : List TestOutcome,
        (runCases ⟨0, 0, 0⟩ os).tests_run
          = (runCases ⟨0, 0, 0⟩ os).tests_passed
            + (runCases ⟨0, 0, 0⟩ os).tests_failed) := by
  refine ⟨?_, ?_, fun c => rfl, fun c os => runCases_run_count os c, ?_⟩
  · intro c o
    rcases o with (_ | _) | _ <;> simp [run_test] <;> omega
  · intro c o h
    rcases o with (_ | _) | _ <;> simp [run_test] <;> omega
  · intro os
    rw [runCases_run_count, runCases_passed_count, runCases_failed_count]
    show 0 + os.length
      = 0 + os.countP (fun o => outcomePassed o) + (0 + os.countP (fun o => !outcomePassed o))
    have hsplit := List.length_eq_countP_add_countP (fun o => outcomePassed o) (l := os)
    have hcong : os.countP (fun a => decide ¬(outcomePassed a = true))
        = os.countP (fun o => !outcomePassed o) := by
      apply List.countP_congr
      intro a _
      cases h : outcomePassed a <;> simp [h]
    omega

/-- C10 witness: the invariant-preservation conjunct applied at a concrete
counter state and an exception outcome. -/
theorem C10_run_test_counters_witness :
    (3 : Nat) = 2 + 1 ∧
    (run_test ⟨3, 2, 1⟩ TestOutcome.exn).1.tests_run
      = (run_test ⟨3, 2, 1⟩ TestOutcome.exn).1.tests_passed
        + (run_test ⟨3, 2, 1⟩ TestOutcome.exn).1.tests_failed ∧
    run_test ⟨3, 2, 1⟩ TestOutcome.exn = (⟨4, 2, 2⟩, false) := by
  have h := C10_run_test_counters
  exact ⟨rfl, h.2.1 ⟨3, 2, 1⟩ TestOutcome.exn rfl, h.2.2.1 ⟨3, 2, 1⟩⟩

/-! ## Orchestrator exit codes (run_tests.py main, lines 109-141, and
OAuth2EdgeCaseTest.run_all_edge_case_tests, test_oauth2_edge_cases.py
lines 1187-1201) -/

/-- run_all_edge_case_tests: fail outright when the server does not start;
otherwise run every case and succeed exactly when no case failed. -/
def run_all_edge_case_tests (serverStarts : Bool) (outcomes : List TestOutcome) : Bool :=
  if serverStarts then (runCases ⟨0, 0, 0⟩ outcomes).tests_failed == 0
  else false

/-- The edge-suite process exit code. -/
def edge_main (serverStarts : Bool) (outcomes : List TestOutcome) : Nat :=
  if run_all_edge_case_tests serverStarts outcomes then 0 else 1

/-- run_tests.py main over the return codes of the selected suites: count
the suites that exited 0 and exit 0 exactly when every selected suite did. -/
def run_tests_main (returncodes : List Nat) : Nat :=
  if returncodes.countP (fun rc => rc == 0) = returncodes.length then 0 else 1

/-- One suite execution as the exit-code logic observes it: whether its
server started, and the outcome of each of its declared cases when it did.
A suite whose server failed to start ran none of its declared cases, so
none of them passed. -/
def orchestrate (suites : List (Bool × List TestOutcome)) : Nat :=
  run_tests_main (suites.map (fun s => edge_main s.1 s.2))

/-- Spec-side reading of the claim: every case in every selected suite
passed — which requires each suite's server to have started (otherwise its
declared cases never ran, hence did not pass) and every executed case
outcome to be a pass. -/
def allSuiteCasesPassed (suites : List (Bool × List TestOutcome)) : Prop :=
  ∀ s ∈ suites, s.1 = true ∧ ∀ o ∈ s.2, outcomePassed o = true

/-- run_tests.py main exits 0 exactly when every selected suite exited 0. -/
theorem run_tests_main_eq_zero_iff (returncodes : List Nat) :
    run_tests_main returncodes = 0 ↔ ∀ rc ∈ returncodes, rc = 0 := by
  unfold run_tests_main
  by_cases hc : returncodes.countP (fun rc => rc == 0) = returncodes.length
  · rw [if_pos hc]
    constructor
    · intro _ rc hrc
      have := List.countP_eq_length.mp hc rc hrc
      simpa using this
    · intro _; rfl
  · rw [if_neg hc]
    constructor
    · intro h1; exact absurd h1 one_ne_zero
    · intro hall
      exact absurd (List.countP_eq_length.mpr
        (fun rc hrc => by simpa using hall rc hrc)) hc

/-- The edge suite exits 0 exactly when its server started and every
executed case passed. -/
theorem edge_main_eq_zero_iff (serverStarts : Bool) (outcomes : List TestOutcome) :
    edge_main serverStarts outcomes = 0 ↔
      (serverStarts = true ∧ ∀ o ∈ outcomes, outcomePassed o = true) := by
  have hfail : (runCases ⟨0, 0, 0⟩ outcomes).tests_failed
      = outcomes.countP (fun o => !outcomePassed o) := by
    rw [runCases_failed_count]
    simp
  cases serverStarts
  · simp [edge_main, run_all_edge_case_tests]
  · constructor
    · intro h0
      refine ⟨rfl, ?_⟩
      unfold edge_main run_all_edge_case_tests at h0
      by_cases hz : (runCases ⟨0, 0, 0⟩ outcomes).tests_failed = 0
      · rw [hfail] at hz
        intro o ho
        have := List.countP_eq_zero.mp hz o ho
        simpa using this
      · exfalso
        rw [if_pos rfl, if_neg (by simpa using hz)] at h0
        exact one_ne_zero h0
    · rintro ⟨-, hall⟩
      have hz : (runCases ⟨0, 0, 0⟩ outcomes).tests_failed = 0 := by
        rw [hfail]
        exact List.countP_eq_zero.mpr (fun o ho => by simp [hall o ho])
      simp [edge_main, run_all_edge_case_tests, hz]

/-- C9: the orchestrator's process exit code is 0 exactly when every case in
every selected suite passed — a suite whose server failed to start ran none
of its declared cases, so they did not pass and the suite (hence the
orchestrator) exits non-zero; the exit code is always 0 or 1, so any failed
case or failed suite yields a non-zero exit code. -/
theorem C9_exit_zero_iff_all_cases_passed (suites : List (Bool × List TestOutcome)) :
    (orchestrate suites = 0 ↔ allSuiteCasesPassed suites) ∧
    (orchestrate suites = 0 ∨ orchestrate suites = 1) := by
  constructor
  · unfold orchestrate allSuiteCasesPassed
    rw [run_tests_main_eq_zero_iff]
    constructor
    · intro h s hs
      have hrc : edge_main s.1 s.2 = 0 :=
        h (edge_main s.1 s.2) (List.mem_map.mpr ⟨s, hs, rfl⟩)
      exact (edge_main_eq_zero_iff s.1 s.2).mp hrc
    · intro h rc hrc
      rcases List.mem_map.mp hrc with ⟨s, hs, rfl⟩
      exact (edge_main_eq_zero_iff s.1 s.2).mpr (h s hs)
  · unfold orchestrate run_tests_main
    split
    · exact Or.inl rfl
    · exact Or.inr rfl

end AirsSpec











